import Mathlib

/-
Verification development for the crawler repository.

The definitions below are shallow embeddings of the Python functions in
app/scraper.py, app/generation.py, app/generation_text.py and
app/db/crud.py.  Pure string manipulation is modelled on List Char /
String; the relational store is modelled as explicit record state
(DB); side-effecting functions become state-passing functions; Python
exceptions become Except results.  Machine integers do not overflow in
any of the modelled code paths (Python ints are unbounded), so Nat/Int
are used directly.
-/

namespace Crawler

/-! ## Generic string helpers shared by several modelled functions -/

/-- Value of a list of decimal digit characters, most significant first
(models Python int() on a digit string). -/
def digitsToNat (l : List Char) : Nat :=
  l.foldl (fun n c => n * 10 + (c.toNat - 48)) 0

/-- Left-pad a digit string with zeros to the given width
(models Python str.zfill on a non-negative number's digits, and the
format spec 0Nd). -/
def zfillDigits (w : Nat) (l : List Char) : List Char :=
  List.replicate (w - l.length) '0' ++ l

/-- Python str.strip() on both ends (whitespace). -/
def pyStrip (l : List Char) : List Char :=
  ((l.dropWhile Char.isWhitespace).reverse.dropWhile Char.isWhitespace).reverse

/-- Python s.replace(given char, other char) specialised to single characters. -/
def replaceChar (a b : Char) (l : List Char) : List Char :=
  l.map (fun c => if c = a then b else c)

/-- Python s[:stop] with a possibly negative stop index. -/
def pySliceTo (l : List Char) (stop : Int) : List Char :=
  if 0 ≤ stop then l.take stop.toNat else l.take (l.length - (-stop).toNat)

/-- Python s.split(sep)[0]: the part of the string before the first
occurrence of the separator character. -/
def takeUntil (sep : Char) (l : List Char) : List Char :=
  l.takeWhile (fun c => c ≠ sep)

/-- Python s.lower() (ASCII case folding suffices for the modelled inputs). -/
def pyLower (l : List Char) : List Char :=
  l.map Char.toLower

/-! ## ID allocator and de-duplicator (app/scraper.py) -/

/-- ID_PREFIX in app/scraper.py. -/
def idPre : String := "11LM"

/-- ID_PAD in app/scraper.py. -/
def idPad : Nat := 3

/-- Model of the _make_id helper in app/scraper.py:
the format string ID_PREFIX followed by n as a zero-padded decimal of
minimum width ID_PAD. -/
def make_id (n : Nat) : String :=
  ⟨idPre.data ++ zfillDigits idPad (Nat.toDigits 10 n)⟩

/-- Result of matching a folder name against the anchored pattern
ID_PREFIX followed by one or more digits (the regex used by _next_index
in app/scraper.py); returns the numeric value on a match. -/
def parseIdxName (name : String) : Option Nat :=
  let cs := name.data
  let rest := cs.drop idPre.length
  if cs.take idPre.length = idPre.data ∧ rest ≠ [] ∧ rest.all Char.isDigit then
    some (digitsToNat rest)
  else
    none

/-- Directory entry of the results directory: a folder name together
with the url field of the folder's metadata JSON file when
folder/folder.json exists, parses, and carries a non-empty url. -/
structure DirEntry where
  name : String
  metaUrl : Option String
deriving DecidableEq, Repr

/-- Results directory state: none models a non-existent directory,
some entries models its listing. -/
abbrev ResultsDir := Option (List DirEntry)

/-- Loop body of _next_index in app/scraper.py: fold the running
maximum (sentinel -1) over one folder name. -/
def stepMax (mx : Int) (name : String) : Int :=
  match parseIdxName name with
  | some k => max mx (k : Int)
  | none => mx

/-- Model of _next_index in app/scraper.py: scan folder names matching
the ID pattern and return max+1 (0 when the directory does not exist or
nothing matches). -/
def next_index (dir : ResultsDir) : Nat :=
  match dir with
  | none => 0
  | some entries => (((entries.map DirEntry.name).foldl stepMax (-1)) + 1).toNat

/-- Model of _existing_urls in app/scraper.py: the url values recorded
in the per-folder metadata files (empty when the directory does not
exist).  The Python set is modelled as the collected list, set facts
being stated via membership. -/
def existing_urls (dir : ResultsDir) : List String :=
  match dir with
  | none => []
  | some entries => entries.filterMap DirEntry.metaUrl

/-- Formalisation of the claimed characterisation of _next_index:
n is the smallest unused non-negative integer such that the folder name
built from n does not already exist in the listing. -/
def isSmallestUnusedIdx (names : List String) (n : Nat) : Prop :=
  make_id n ∉ names ∧ ∀ m < n, make_id m ∈ names

instance (names : List String) (n : Nat) : Decidable (isSmallestUnusedIdx names n) := by
  unfold isSmallestUnusedIdx
  infer_instance

/-! ## The below-ID generator (app/generation.py and app/generation_text.py) -/

/-- Model of _parse_article_id (identical in app/generation.py and
app/generation_text.py): the regex with a non-greedy head group and a
trailing digit group splits the string at the maximal trailing run of
digit characters; no trailing digit yields the sentinel ("", -1, 0). -/
def parse_article_id (s : String) : String × Int × Nat :=
  let cs := s.data
  let ds := (cs.reverse.takeWhile Char.isDigit).reverse
  let pre := (cs.reverse.dropWhile Char.isDigit).reverse
  if ds = [] then ("", -1, 0)
  else (⟨pre⟩, (digitsToNat ds : Int), ds.length)

/-- Model of _ids_below (identical in app/generation.py and
app/generation_text.py): decrement the parsed numeric suffix count
times, re-padding to the parsed width, and keep only non-negative
numbers. -/
def ids_below (startId : String) (count : Nat) : List String :=
  let p := parse_article_id startId
  if p.2.1 < 0 then []
  else
    (List.range count).filterMap (fun (j : Nat) =>
      if (j : Int) + 1 ≤ p.2.1 then
        some (⟨p.1.data ++ zfillDigits p.2.2 (Nat.toDigits 10 (p.2.1 - ((j : Int) + 1)).toNat)⟩ : String)
      else none)

example : ids_below "11LM099" 5 = ["11LM098", "11LM097", "11LM096", "11LM095", "11LM094"] := by decide
example : ids_below "11LM002" 5 = ["11LM001", "11LM000"] := by decide
example : next_index (some [⟨"11LM005", none⟩]) = 6 := by decide
example : next_index (some [⟨"11LM000", none⟩, ⟨"posts.xlsx", none⟩, ⟨"11LM007", none⟩]) = 8 := by decide
example : next_index none = 0 := by decide

/-! ## Relational store (app/db/models.py plus the schema migration
alembic/versions/8b482363487c, which adds the generation flag columns to
articles and the data/size_bytes columns to assets that
app/db/crud.py and app/generation.py rely on) -/

/-- AssetKind enum in app/db/models.py. -/
inductive AssetKind where
  | original_image
  | thumb
  | generated_image
  | other
deriving DecidableEq, Repr

/-- TextKind enum in app/db/models.py. -/
inductive TextKind where
  | original_text
  | generated_text_from_image
  | other
deriving DecidableEq, Repr

/-- Article row (articles table: app/db/models.py columns plus the
generation flag columns added by migration 8b482363487c).  Datetimes
are modelled as Nat timestamps. -/
structure ArticleRow where
  id : String
  url : String
  title : String
  published_at : Option Nat
  paragraphs_count : Nat
  created_at : Nat
  updated_at : Nat
  has_image_generated : Bool
  image_generated_at : Option Nat
  has_text_generated : Bool
  text_generated_at : Option Nat
deriving DecidableEq, Repr

/-- Asset row (assets table, including the data/size_bytes columns from
migration 8b482363487c).  The binary blob is modelled as a list of
bytes. -/
structure AssetRow where
  id : Nat
  article_id : String
  kind : AssetKind
  path : String
  mime : Option String
  sha256 : Option String
  width : Option Nat
  height : Option Nat
  data : Option (List Nat)
  size_bytes : Option Nat
  created_at : Nat
deriving DecidableEq, Repr

/-- Text row (texts table in app/db/models.py). -/
structure TextRowM where
  id : Nat
  article_id : String
  kind : TextKind
  path : String
  preview : Option String
  tokens : Option Nat
  created_at : Nat
deriving DecidableEq, Repr

/-- Database state: the three tables touched by the modelled code and
the autoincrement counters that hand out primary keys. -/
structure DB where
  articles : List ArticleRow
  assets : List AssetRow
  texts : List TextRowM
  nextAssetId : Nat
  nextTextId : Nat
deriving DecidableEq, Repr

/-- Model of Session.get(Article, id): first row with the primary key. -/
def dbGetArticle (db : DB) (id : String) : Option ArticleRow :=
  db.articles.find? (fun a => a.id = id)

/-- Key predicate of the idempotent-insertion lookup used by
create_or_get_asset: same (article_id, kind, path). -/
def assetKeyPred (article_id : String) (kind : AssetKind) (path : String) : AssetRow → Bool :=
  fun a => a.article_id = article_id ∧ a.kind = kind ∧ a.path = path

/-- Key predicate of the idempotent-insertion lookup used by
create_or_get_text: same (article_id, kind, path). -/
def textKeyPred (article_id : String) (kind : TextKind) (path : String) : TextRowM → Bool :=
  fun r => r.article_id = article_id ∧ r.kind = kind ∧ r.path = path

/-- Number of asset rows holding a given (article_id, kind, path) key. -/
def countAssetKey (db : DB) (article_id : String) (kind : AssetKind) (path : String) : Nat :=
  (db.assets.filter (assetKeyPred article_id kind path)).length

/-- Number of text rows holding a given (article_id, kind, path) key. -/
def countTextKey (db : DB) (article_id : String) (kind : TextKind) (path : String) : Nat :=
  (db.texts.filter (textKeyPred article_id kind path)).length

/-! ## app/db/crud.py -/

/-- Model of upsert_article in app/db/crud.py.  The now argument
models datetime.utcnow().  On an existing id the function updates
title, url, paragraphs_count and updated_at, and published_at only when
the argument is truthy (a datetime is truthy exactly when it is not
None, so Option.isSome models the Python if published_at test);
otherwise it inserts a fresh row with the column defaults.  Returns the
affected row together with the new state. -/
def upsert_article (db : DB) (now : Nat) (id url title : String)
    (published_at : Option Nat) (paragraphs_count : Nat) : ArticleRow × DB :=
  match db.articles.find? (fun a => a.id = id) with
  | some a0 =>
    let upd := fun (a : ArticleRow) =>
      if a.id = id then
        { a with
          title := title
          url := url
          paragraphs_count := paragraphs_count
          updated_at := now
          published_at := if published_at.isSome then published_at else a.published_at }
      else a
    (upd a0, { db with articles := db.articles.map upd })
  | none =>
    let a : ArticleRow :=
      { id := id, url := url, title := title, published_at := published_at,
        paragraphs_count := paragraphs_count, created_at := now, updated_at := now,
        has_image_generated := false, image_generated_at := none,
        has_text_generated := false, text_generated_at := none }
    (a, { db with articles := db.articles ++ [a] })

/-- Model of create_or_get_text in app/db/crud.py: return the first row
with the same (article_id, kind, path), otherwise add a new one.  The
new row's primary key is the autoincrement counter. -/
def create_or_get_text (db : DB) (now : Nat) (article_id : String) (kind : TextKind)
    (path : String) (preview : Option String) (tokens : Option Nat) : TextRowM × DB :=
  match db.texts.find? (textKeyPred article_id kind path) with
  | some row => (row, db)
  | none =>
    let row : TextRowM :=
      { id := db.nextTextId, article_id := article_id, kind := kind, path := path,
        preview := preview, tokens := tokens, created_at := now }
    (row, { db with texts := db.texts ++ [row], nextTextId := db.nextTextId + 1 })

/-- Error message raised by create_or_get_asset on a sha256 conflict. -/
def shaConflictMsg : String :=
  "Asset with same sha256 already exists for a different article. Either remove the unique constraint on 'assets.sha256' or pass sha256=None here."

/-- Model of create_or_get_asset in app/db/crud.py.  First the
(article_id, kind, path) lookup; then, when sha256 is truthy (a
non-None, non-empty string), the global sha256 lookup: a hit owned by a
different article raises, a hit owned by the same article is returned;
otherwise a fresh row is inserted and its autoincrement id returned.
The state component is returned alongside so that the raising branches
observably leave the store unchanged (the Python raise happens before
any db.add). -/
def create_or_get_asset (db : DB) (now : Nat) (article_id : String) (kind : AssetKind)
    (path : String) (mime : Option String) (sha256 : Option String)
    (width : Option Nat) (height : Option Nat) (data : Option (List Nat))
    (size_bytes : Option Nat) : Except String Nat × DB :=
  match db.assets.find? (assetKeyPred article_id kind path) with
  | some row => (.ok row.id, db)
  | none =>
    let insertNew : Except String Nat × DB :=
      let row : AssetRow :=
        { id := db.nextAssetId, article_id := article_id, kind := kind, path := path,
          mime := mime, sha256 := sha256, width := width, height := height,
          data := data, size_bytes := size_bytes, created_at := now }
      (.ok db.nextAssetId, { db with assets := db.assets ++ [row], nextAssetId := db.nextAssetId + 1 })
    match sha256 with
    | some h =>
      if h = "" then insertNew
      else
        match db.assets.find? (fun a => a.sha256 = some h) with
        | some existing_by_hash =>
          if existing_by_hash.article_id ≠ article_id then (.error shaConflictMsg, db)
          else (.ok existing_by_hash.id, db)
        | none => insertNew
    | none => insertNew

/-- Model of mark_article_image_generated in app/db/crud.py: raise when
the article is missing, otherwise set the flag and both timestamps. -/
def mark_article_image_generated (db : DB) (now : Nat) (article_id : String) : Except String DB :=
  match db.articles.find? (fun a => a.id = article_id) with
  | none => .error ("Article " ++ article_id ++ " not found")
  | some _ =>
    .ok { db with articles := db.articles.map (fun a =>
      if a.id = article_id then
        { a with has_image_generated := true, image_generated_at := some now, updated_at := now }
      else a) }

/-- Model of get_pending_articles_for_t2i in app/db/crud.py: (id, title,
url) of articles whose has_image_generated flag is false, ordered by
created_at ascending, truncated to the limit. -/
def get_pending_articles_for_t2i (db : DB) (limit : Nat) : List (String × String × String) :=
  (((db.articles.filter (fun a => !a.has_image_generated)).insertionSort
      (fun a b => a.created_at ≤ b.created_at)).take limit).map
    (fun a => (a.id, a.title, a.url))

/-! ## Prompt construction (app/generation.py) -/

/-- Connective between title and body piece in _build_prompt
(app/generation.py), coming from the f-string: a dot, a space, the
style sentence and the final space before the piece; 47 characters. -/
def styleMid : List Char := ". Photorealistic editorial illustration about: ".data

/-- Model of _build_prompt in app/generation.py: strip the title, strip
the body and replace newlines by spaces, slice the body to
max_chars - len(title) - 20 (a Python slice, so a negative stop counts
from the end), strip the piece, and join with the style sentence. -/
def build_prompt (title body : List Char) (max_chars : Int) : List Char :=
  let t := pyStrip title
  let b := replaceChar '\n' ' ' (pyStrip body)
  let piece := pyStrip (pySliceTo b (max_chars - (t.length : Int) - 20))
  t ++ styleMid ++ piece

/-! ## Text-to-image orchestrator (app/generation.py) -/

/-- Successful external interaction of one generation call: the
metadata of the image the DashScope API produced and the follow-up
download retrieved. -/
structure GenImage where
  sha256 : String
  width : Nat
  height : Nat
  bytes : List Nat
deriving DecidableEq, Repr

/-- Environment of one generate_t2i_for_article call: whether
DASHSCOPE_API_KEY is set, the clock (timestamp string for the output
path and Nat time for the DB columns), and the outcome of the external
API request plus image download (none models any failure along that
path: HTTP error, malformed response shape, or download error). -/
structure T2IEnv where
  apiKeySet : Bool
  ts : String
  now : Nat
  apiResp : Option GenImage
deriving DecidableEq, Repr

/-- Return value of generate_t2i_for_article: the skipped dict or the
full result dict. -/
inductive T2IOutcome where
  | skipped (article_id : String)
  | done (article_id : String) (image_path : String) (sha256 : String) (width height : Nat)
deriving DecidableEq, Repr

/-- Output path used by generate_t2i_for_article:
crawled_results/(id)/_gen/text_to_image/(model)@(ts).png . -/
def t2iOutPath (article_id ts : String) : String :=
  "crawled_results/" ++ article_id ++ "/_gen/text_to_image/qwen-image-plus@" ++ ts ++ ".png"

/-- Fast-path test of generate_t2i_for_article: skip when not forced
and the article exists with its has_image_generated flag set. -/
def t2iSkip (db : DB) (article_id : String) (force : Bool) : Bool :=
  if force then false
  else
    match dbGetArticle db article_id with
    | some a => a.has_image_generated
    | none => false

/-- Model of generate_t2i_for_article in app/generation.py.  The first
component counts external network calls made during the invocation (the
DashScope POST and the image download GET).  Control flow follows the
source: missing API key raises; the skip fast-path answers before any
network call; then the API call and download (a none response raises);
then, inside one transaction, create_or_get_asset and
mark_article_image_generated — an error from either rolls the
transaction back, leaving the store unchanged, and propagates. -/
def generate_t2i_for_article (env : T2IEnv) (db : DB) (article_id title body : String)
    (force : Bool) (store_blob_in_db : Bool) : Nat × Except String (T2IOutcome × DB) :=
  if ¬env.apiKeySet then (0, .error "DASHSCOPE_API_KEY is not set")
  else
    let _prompt := build_prompt title.data body.data 750
    if t2iSkip db article_id force then (0, .ok (.skipped article_id, db))
    else
      match env.apiResp with
      | none => (1, .error "Unexpected response: model output structure changed")
      | some img =>
        let out_path := t2iOutPath article_id env.ts
        match create_or_get_asset db env.now article_id .generated_image out_path
            (some "image/png") (some img.sha256) (some img.width) (some img.height)
            (if store_blob_in_db then some img.bytes else none) (some img.bytes.length) with
        | (.error e, _) => (2, .error e)
        | (.ok _assetId, db1) =>
          match mark_article_image_generated db1 env.now article_id with
          | .error e => (2, .error e)
          | .ok db2 =>
            (2, .ok (.done article_id out_path img.sha256 img.width img.height, db2))

/-- Loop of generate_missing_images: process the pending items in
order, one environment per position, catching and logging any per-item
failure.  Returns the final store, the ids attempted (each one leads to
a generate_t2i_for_article invocation), and the total external-call
count. -/
def gmiLoop (envs : Nat → T2IEnv) : Nat → DB → List (String × String × String) → DB × List String × Nat
  | _, db, [] => (db, [], 0)
  | i, db, (article_id, title, _url) :: rest =>
    let r := generate_t2i_for_article (envs i) db article_id title "" false true
    let db1 := match r.2 with
      | .ok (_, d) => d
      | .error _ => db
    let tail := gmiLoop envs (i + 1) db1 rest
    (tail.1, article_id :: tail.2.1, r.1 + tail.2.2)

/-- Model of generate_missing_images in app/generation.py: fetch the
pending articles, attempt generation for each (exceptions caught
per-item), then return the pending ids when dry_run is set and nothing
otherwise (the Python function falls off the end returning None). -/
def generate_missing_images (envs : Nat → T2IEnv) (db : DB) (limit : Nat) (dry_run : Bool) :
    (DB × List String × Nat) × Option (List String) :=
  let items := get_pending_articles_for_t2i db limit
  let ids := items.map (fun it => it.1)
  let core := gmiLoop envs 0 db items
  (core, if dry_run then some ids else none)

/-! ## Retry loop (backoff_retry_get in app/scraper.py) -/

/-- Outcome of one attempted GET inside backoff_retry_get: a response
with a status code and an optional parsed Retry-After header, or a
raised RequestException (connection error, timeout, ...). -/
inductive Attempt where
  | resp (status : Nat) (retryAfter : Option Nat)
  | netErr
deriving DecidableEq, Repr

/-- Result of the modelled backoff_retry_get: the sleeps performed (in
seconds, as rationals since the linear backoff is 1.5 times the attempt
number) and either the status of the returned response or the
propagated error. -/
structure RetryTrace where
  sleeps : List ℚ
  outcome : Except String Nat
deriving Repr

/-- Recursive worker of backoff_retry_get.  The fuel argument only
bounds the recursion; the loop itself always terminates within
max_tries attempts (at attempt max_tries every branch returns or
raises), and backoff_retry_get supplies enough fuel for that.  The env
function gives the outcome of the attempt with the given 1-based
number.  Follows the source: a 429 response sleeps
min(Retry-After default 2, 10) and retries while tries < max_tries,
otherwise falls through to raise_for_status whose HTTPError is caught
and re-raised since tries >= max_tries; any other RequestException
re-raises when tries >= max_tries and otherwise sleeps 1.5*tries and
retries; a non-error status is returned. -/
def backoffStep (max_tries : Nat) (env : Nat → Attempt) : Nat → Nat → RetryTrace
  | 0, _ => ⟨[], .error "out of fuel"⟩
  | fuel + 1, tries =>
    let t := tries + 1
    match env t with
    | .netErr =>
      if max_tries ≤ t then ⟨[], .error "RequestException"⟩
      else
        let rest := backoffStep max_tries env fuel t
        ⟨(3 / 2 : ℚ) * t :: rest.sleeps, rest.outcome⟩
    | .resp status retryAfter =>
      if status = 429 then
        let slept : ℚ := (min (retryAfter.getD 2) 10 : Nat)
        if t < max_tries then
          let rest := backoffStep max_tries env fuel t
          ⟨slept :: rest.sleeps, rest.outcome⟩
        else ⟨[slept], .error "HTTPError 429"⟩
      else if 400 ≤ status then
        if max_tries ≤ t then ⟨[], .error "HTTPError"⟩
        else
          let rest := backoffStep max_tries env fuel t
          ⟨(3 / 2 : ℚ) * t :: rest.sleeps, rest.outcome⟩
      else ⟨[], .ok status⟩

/-- Model of backoff_retry_get in app/scraper.py (tries starts at 0 and
is incremented at the top of each loop iteration). -/
def backoff_retry_get (max_tries : Nat) (env : Nat → Attempt) : RetryTrace :=
  backoffStep max_tries env (max_tries + 1) 0

/-! ## Image extension resolution (_save_post_files in app/scraper.py) -/

/-- Python os.path.splitext(p)[-1]: the extension of the path, i.e. the
suffix from the last dot of the final path component, provided some
character of that component strictly before the last dot is not itself
a dot (so dotfiles such as .bashrc have no extension). -/
def splitextExt (l : List Char) : List Char :=
  let base := (l.reverse.takeWhile (fun c => c ≠ '/')).reverse
  let beforeDot := (base.reverse.dropWhile (fun c => c ≠ '.')).reverse
  let afterDot := (base.reverse.takeWhile (fun c => c ≠ '.')).reverse
  if beforeDot = [] then []
  else if beforeDot.all (fun c => c = '.') then []
  else '.' :: afterDot

/-- The lowercased media type before any parameters, as computed in
_save_post_files: Content-Type split at the first semicolon, stripped,
lowercased. -/
def normalizeCt (contentType : String) : String :=
  ⟨pyLower (pyStrip (takeUntil ';' contentType.data))⟩

/-- URL-derived fallback extension: os.path.splitext(url)[-1].split(qm)[0]
or .jpg when empty. -/
def extFallbackUrl (url : String) : String :=
  let u : List Char := takeUntil '?' (splitextExt url.data)
  if u = [] then ".jpg" else ⟨u⟩

/-- Extension fallback chain of _save_post_files given the result of
the content-type guess: when the guess is falsy (None or empty), take
the URL path extension with everything from the first question mark
stripped, and when that is empty too, use .jpg . -/
def extFallback (guessed : Option String) (url : String) : String :=
  match guessed with
  | some e => if e = "" then extFallbackUrl url else e
  | none => extFallbackUrl url

/-- Model of the extension-resolution block in _save_post_files
(app/scraper.py lines 212-221).  The table argument models the Python
mimetypes.guess_extension lookup, which is a stdlib table, not
repository code; it is a parameter so the theorems hold for every
table. -/
def resolveExt (table : String → Option String) (contentType url : String) : String :=
  let ct := normalizeCt contentType
  let guessed : Option String := if ct = "" then none else table ct
  let e1 := extFallback guessed url
  if e1 = ".jpe" then ".jpg" else e1

/-- Entries of the Python mimetypes table relevant to the modelled
image flows (values as returned by mimetypes.guess_extension on the
platforms this repository targets). -/
def pyImgMimeTable (ct : String) : Option String :=
  if ct = "image/webp" then some ".webp"
  else if ct = "image/png" then some ".png"
  else if ct = "image/jpeg" then some ".jpg"
  else if ct = "image/gif" then some ".gif"
  else none

/-- Spec-side formulation of the below-ID generator for claim C4,
written from the spec's words: the IDs obtained by decrementing the
numeric suffix value, re-padded to the suffix's width, any ID whose
number would go below zero being omitted. -/
def ids_below_spec (pre : String) (n w count : Nat) : List String :=
  (List.range count).filterMap (fun j =>
    if j + 1 ≤ n then
      some (⟨pre.data ++ zfillDigits w (Nat.toDigits 10 (n - (j + 1)))⟩ : String)
    else none)

/-! ## Helper lemmas -/

theorem le_stepMax (mx : Int) (name : String) : mx ≤ stepMax mx name := by
  unfold stepMax
  cases parseIdxName name with
  | none => exact le_refl mx
  | some k => exact le_max_left mx k

theorem le_foldl_stepMax (l : List String) (init : Int) : init ≤ l.foldl stepMax init := by
  induction l generalizing init with
  | nil => exact le_refl init
  | cons a t ih =>
    calc init ≤ stepMax init a := le_stepMax init a
    _ ≤ (a :: t).foldl stepMax init := ih (stepMax init a)

theorem mem_le_foldl_stepMax (l : List String) (init : Int) (name : String) (k : Nat)
    (hmem : name ∈ l) (hp : parseIdxName name = some k) : (k : Int) ≤ l.foldl stepMax init := by
  induction l generalizing init with
  | nil => cases hmem
  | cons a t ih =>
    rcases List.mem_cons.mp hmem with h | h
    · subst h
      have h1 : (k : Int) ≤ stepMax init name := by
        unfold stepMax
        rw [hp]
        exact le_max_right init (k : Int)
      calc (k : Int) ≤ stepMax init name := h1
      _ ≤ (name :: t).foldl stepMax init := le_foldl_stepMax t (stepMax init name)
    · exact ih (stepMax init a) h

theorem foldl_stepMax_attained (l : List String) (init : Int) :
    l.foldl stepMax init = init ∨
      ∃ name ∈ l, ∃ k : Nat, parseIdxName name = some k ∧ l.foldl stepMax init = (k : Int) := by
  induction l generalizing init with
  | nil => exact Or.inl rfl
  | cons a t ih =>
    have hstep : stepMax init a = init ∨
        ∃ k : Nat, parseIdxName a = some k ∧ stepMax init a = max init (k : Int) := by
      unfold stepMax
      cases hp : parseIdxName a with
      | none => exact Or.inl rfl
      | some k => exact Or.inr ⟨k, rfl, rfl⟩
    rcases ih (stepMax init a) with h | h
    · rcases hstep with h2 | ⟨k, hp, h2⟩
      · exact Or.inl (by simpa [List.foldl_cons, h2] using h)
      · rcases le_or_lt (k : Int) init with hle | hlt
        · exact Or.inl (by simp only [List.foldl_cons] at h ⊢; rw [h, h2, max_eq_left hle])
        · refine Or.inr ⟨a, List.mem_cons_self a t, k, hp, ?_⟩
          simp only [List.foldl_cons] at h ⊢
          rw [h, h2, max_eq_right (le_of_lt hlt)]
    · rcases h with ⟨name, hmem, k, hp, hval⟩
      exact Or.inr ⟨name, List.mem_cons_of_mem a hmem, k, hp, by simpa [List.foldl_cons] using hval⟩

theorem takeWhile_append_of_all {α : Type} (p : α → Bool) (l1 l2 : List α)
    (h : ∀ x ∈ l1, p x = true) : (l1 ++ l2).takeWhile p = l1 ++ l2.takeWhile p := by
  induction l1 with
  | nil => simp
  | cons a t ih =>
    have ha : p a = true := h a (List.mem_cons_self a t)
    simp only [List.cons_append, List.takeWhile_cons, ha, if_true]
    rw [ih (fun x hx => h x (List.mem_cons_of_mem a hx))]

theorem dropWhile_append_of_all {α : Type} (p : α → Bool) (l1 l2 : List α)
    (h : ∀ x ∈ l1, p x = true) : (l1 ++ l2).dropWhile p = l2.dropWhile p := by
  induction l1 with
  | nil => simp
  | cons a t ih =>
    have ha : p a = true := h a (List.mem_cons_self a t)
    simp only [List.cons_append, List.dropWhile_cons, ha, if_true]
    exact ih (fun x hx => h x (List.mem_cons_of_mem a hx))

theorem takeWhile_eq_nil_of_head {α : Type} (p : α → Bool) (l : List α)
    (h : ∀ c, l.head? = some c → p c = false) : l.takeWhile p = [] := by
  cases l with
  | nil => rfl
  | cons a t => simp [List.takeWhile_cons, h a rfl]

theorem dropWhile_eq_self_of_head {α : Type} (p : α → Bool) (l : List α)
    (h : ∀ c, l.head? = some c → p c = false) : l.dropWhile p = l := by
  cases l with
  | nil => rfl
  | cons a t => simp [List.dropWhile_cons, h a rfl]

/-! ## Claim C3 -/

/-- Claim C3, counterexample.  The claim says _next_index returns the
smallest unused non-negative integer n such that the prefixed
zero-padded folder name for n does not already exist.  On the listing
containing only the folder 11LM005 the code returns 6 (max+1), yet the
name 11LM000 built from 0 is unused, so 6 is not the smallest unused
index: gaps make the two characterisations in the claim disagree. -/
theorem C3_counterexample :
    ¬ isSmallestUnusedIdx ["11LM005"]
        (next_index (some [{ name := "11LM005", metaUrl := none }])) := by
  decide

/-- Claim C3 (amended): _next_index returns one more than the maximum
numeric suffix over folder names matching the prefix pattern — every
matching name's number is strictly below the result, and the result is
either 0 or one more than some matching name's number (so gaps are not
reused); if the directory does not exist it returns 0, and in that case
_existing_urls returns the empty set. -/
theorem C3_next_index_max_plus_one (dir : ResultsDir) :
    (∀ e ∈ dir.getD [], ∀ k, parseIdxName e.name = some k → k < next_index dir) ∧
    (next_index dir = 0 ∨
      ∃ e ∈ dir.getD [], parseIdxName e.name = some (next_index dir - 1) ∧ 1 ≤ next_index dir) ∧
    (dir = none → next_index dir = 0 ∧ existing_urls dir = []) := by
  cases dir with
  | none =>
    refine ⟨?_, Or.inl rfl, fun _ => ⟨rfl, rfl⟩⟩
    intro e he
    cases he
  | some entries =>
    refine ⟨?_, ?_, fun h => by cases h⟩
    · intro e he k hp
      have hmem : e.name ∈ entries.map DirEntry.name := List.mem_map.mpr ⟨e, he, rfl⟩
      have hle := mem_le_foldl_stepMax (entries.map DirEntry.name) (-1) e.name k hmem hp
      show k < (((entries.map DirEntry.name).foldl stepMax (-1)) + 1).toNat
      omega
    · rcases foldl_stepMax_attained (entries.map DirEntry.name) (-1) with h | h
      · left
        show (((entries.map DirEntry.name).foldl stepMax (-1)) + 1).toNat = 0
        rw [h]
        rfl
      · rcases h with ⟨name, hmem, k, hp, hval⟩
        rcases List.mem_map.mp hmem with ⟨e, he, hname⟩
        right
        refine ⟨e, he, ?_, ?_⟩
        · rw [hname, hp]
          congr 1
          show k = (((entries.map DirEntry.name).foldl stepMax (-1)) + 1).toNat - 1
          rw [hval]
          omega
        · show 1 ≤ (((entries.map DirEntry.name).foldl stepMax (-1)) + 1).toNat
          rw [hval]
          omega

/-- Witness for C3_next_index_max_plus_one at a concrete directory
listing with a gap: the parsed index 5 of folder 11LM005 is below the
allocator's answer, and a missing directory yields index 0 and no known
urls. -/
theorem C3_witness :
    5 < next_index (some [{ name := "11LM005", metaUrl := none }]) ∧
    next_index none = 0 ∧ existing_urls none = [] := by
  refine ⟨?_, (C3_next_index_max_plus_one none).2.2 rfl⟩
  exact (C3_next_index_max_plus_one (some [{ name := "11LM005", metaUrl := none }])).1
    { name := "11LM005", metaUrl := none } (by decide) 5 (by decide)

/-! ## Claim C4 -/

theorem parse_article_id_split (pre ds : List Char)
    (hds : ds ≠ []) (hdig : ∀ c ∈ ds, c.isDigit = true)
    (hpre : ∀ c, pre.getLast? = some c → c.isDigit = false) :
    parse_article_id ⟨pre ++ ds⟩ = (⟨pre⟩, (digitsToNat ds : Int), ds.length) := by
  have hdigRev : ∀ c ∈ ds.reverse, c.isDigit = true := by
    intro c hc
    exact hdig c (List.mem_reverse.mp hc)
  have hheadRev : ∀ c, pre.reverse.head? = some c → c.isDigit = false := by
    intro c hc
    rw [List.head?_reverse] at hc
    exact hpre c hc
  have htake : ((pre ++ ds).reverse.takeWhile Char.isDigit).reverse = ds := by
    rw [List.reverse_append, takeWhile_append_of_all Char.isDigit ds.reverse pre.reverse hdigRev,
      takeWhile_eq_nil_of_head Char.isDigit pre.reverse hheadRev]
    simp
  have hdrop : ((pre ++ ds).reverse.dropWhile Char.isDigit).reverse = pre := by
    rw [List.reverse_append, dropWhile_append_of_all Char.isDigit ds.reverse pre.reverse hdigRev,
      dropWhile_eq_self_of_head Char.isDigit pre.reverse hheadRev]
    simp
  unfold parse_article_id
  simp only [htake, hdrop]
  rw [if_neg hds]

/-- Claim C4: for start ID 11LM099 and count 5 the below-ID generator
returns exactly 11LM098 .. 11LM094; and in general, for a start ID
whose data splits into a head that does not end in a digit followed by
a non-empty run of digits, the result is the list of IDs obtained by
decrementing the suffix value while re-padding to the suffix width,
omitting any ID whose number would drop below zero. -/
theorem C4_ids_below_correct :
    ids_below "11LM099" 5 = ["11LM098", "11LM097", "11LM096", "11LM095", "11LM094"] ∧
    ∀ (pre ds : List Char) (count : Nat),
      ds ≠ [] → (∀ c ∈ ds, c.isDigit = true) →
      (∀ c, pre.getLast? = some c → c.isDigit = false) →
      ids_below ⟨pre ++ ds⟩ count = ids_below_spec ⟨pre⟩ (digitsToNat ds) ds.length count := by
  constructor
  · decide
  · intro pre ds count hds hdig hpre
    unfold ids_below ids_below_spec
    rw [parse_article_id_split pre ds hds hdig hpre]
    dsimp only
    have hneg : ¬ ((digitsToNat ds : Int) < 0) := by omega
    rw [if_neg hneg]
    apply List.filterMap_congr
    intro j _
    by_cases hc : j + 1 ≤ digitsToNat ds
    · have hc2 : ((j : Int) + 1 ≤ (digitsToNat ds : Int)) := by omega
      rw [if_pos hc2, if_pos hc]
      have hval : (((digitsToNat ds : Int)) - ((j : Int) + 1)).toNat = digitsToNat ds - (j + 1) := by
        omega
      rw [hval]
    · have hc2 : ¬ ((j : Int) + 1 ≤ (digitsToNat ds : Int)) := by omega
      rw [if_neg hc2, if_neg hc]

/-- Witness for the general part of C4_ids_below_correct at the spec's
concrete input 11LM099 with count 5. -/
theorem C4_witness :
    ids_below ⟨"11LM".data ++ "099".data⟩ 5 = ids_below_spec "11LM" (digitsToNat "099".data) ("099".data).length 5 :=
  C4_ids_below_correct.2 "11LM".data "099".data 5 (by decide) (by decide) (by decide)

/-! ## Claim C1 -/

/-- Claim C1: on a store where the (article_id, kind, path) triple is
not present and some asset already carries the given non-null sha256,
create_or_get_asset raises the conflict error and leaves the store
unchanged when that asset belongs to a different article, and returns
that asset's id without creating a row when it belongs to the same
article. -/
theorem C1_asset_sha_conflict (db : DB) (now : Nat) (aid : String) (kind : AssetKind)
    (path : String) (mime : Option String) (h : String) (w ht : Option Nat)
    (d : Option (List Nat)) (sz : Option Nat) (ex : AssetRow)
    (hne : h ≠ "")
    (hkey : db.assets.find? (assetKeyPred aid kind path) = none)
    (hsha : db.assets.find? (fun a => a.sha256 = some h) = some ex) :
    (ex.article_id ≠ aid →
      create_or_get_asset db now aid kind path mime (some h) w ht d sz = (.error shaConflictMsg, db)) ∧
    (ex.article_id = aid →
      create_or_get_asset db now aid kind path mime (some h) w ht d sz = (.ok ex.id, db)) := by
  unfold create_or_get_asset
  simp only [hkey, hsha, if_neg hne]
  constructor
  · intro hdiff
    rw [if_pos hdiff]
  · intro heq
    rw [if_neg (fun hh => hh heq)]

/-- Store used by the witness of C1: one asset bound to article B with
sha256 h. -/
def c1db : DB :=
  { articles := [], texts := [], nextAssetId := 8, nextTextId := 0,
    assets := [{ id := 7, article_id := "B", kind := .original_image, path := "p0",
                 mime := none, sha256 := some "h", width := none, height := none,
                 data := none, size_bytes := none, created_at := 0 }] }

/-- Witness for C1_asset_sha_conflict: registering an asset for article
A with the hash already bound to article B raises the conflict error
and leaves the store unchanged. -/
theorem C1_witness :
    create_or_get_asset c1db 1 "A" .original_image "p1" none (some "h") none none none none
      = (.error shaConflictMsg, c1db) :=
  (C1_asset_sha_conflict c1db 1 "A" .original_image "p1" none "h" none none none none
    { id := 7, article_id := "B", kind := .original_image, path := "p0",
      mime := none, sha256 := some "h", width := none, height := none,
      data := none, size_bytes := none, created_at := 0 }
    (by decide) (by decide) (by decide)).1 (by decide)

/-! ## Claim C2 -/

/-- Store used by the C2 counterexample: one asset for article A under
path p0 carrying sha256 h. -/
def c2db : DB :=
  { articles := [], texts := [], nextAssetId := 8, nextTextId := 0,
    assets := [{ id := 7, article_id := "A", kind := .other, path := "p0",
                 mime := none, sha256 := some "h", width := none, height := none,
                 data := none, size_bytes := none, created_at := 0 }] }

/-- Claim C2, counterexample.  Calling create_or_get_asset twice with
identical arguments (article A, kind other, path p1, the sha256 h that
article A already owns under another path) returns the existing id 7
both times and adds no row — but then the number of rows for the key
(A, other, p1) is 0 after both calls, not 1 as the claim asserts: the
same-article sha256 short-circuit answers without ever creating a row
with the requested key. -/
theorem C2_counterexample :
    (create_or_get_asset c2db 1 "A" AssetKind.other "p1" none (some "h") none none none none).1
      = Except.ok 7 ∧
    (create_or_get_asset c2db 1 "A" AssetKind.other "p1" none (some "h") none none none none).2
      = c2db ∧
    ¬ (countAssetKey
        (create_or_get_asset c2db 1 "A" AssetKind.other "p1" none (some "h") none none none none).2
        "A" AssetKind.other "p1" = 1) := by
  refine ⟨rfl, rfl, ?_⟩
  intro hcount
  have h0 : countAssetKey
      (create_or_get_asset c2db 1 "A" AssetKind.other "p1" none (some "h") none none none none).2
      "A" AssetKind.other "p1" = 0 := rfl
  rw [h0] at hcount
  exact absurd hcount (by decide)

/-- Claim C2 (amended): a second call of create_or_get_asset with the
same arguments as a first call that returned ok gives the same row id
and leaves the store exactly as the first call left it (so it adds no
row and the row count for the key is unchanged); likewise a second call
of create_or_get_text returns the same row and final store as the
first.  The row count for the key equals 1 after the first call
whenever that call actually found or inserted a row with the key; when
the same-article sha256 short-circuit answers, the count stays 0. -/
theorem find?_append_singleton_of_none {α : Type} (p : α → Bool) (l : List α) (x : α)
    (hl : l.find? p = none) (hx : p x = true) : (l ++ [x]).find? p = some x := by
  rw [List.find?_append, hl, List.find?_cons, hx]
  rfl

theorem create_or_get_asset_key_found (db : DB) (now : Nat) (aid : String) (ak : AssetKind)
    (path : String) (mime sha : Option String) (w ht : Option Nat) (d : Option (List Nat))
    (sz : Option Nat) (row : AssetRow)
    (hk : db.assets.find? (assetKeyPred aid ak path) = some row) :
    create_or_get_asset db now aid ak path mime sha w ht d sz = (.ok row.id, db) := by
  unfold create_or_get_asset
  rw [hk]

theorem create_or_get_asset_after_insert (db db1 : DB) (now now2 : Nat) (aid : String)
    (ak : AssetKind) (path : String) (mime sha : Option String) (w ht : Option Nat)
    (d : Option (List Nat)) (sz : Option Nat) (i : Nat)
    (hk : db.assets.find? (assetKeyPred aid ak path) = none)
    (hIns : ((Except.ok db.nextAssetId : Except String Nat),
        ({ db with
           assets := db.assets ++
               [{ id := db.nextAssetId, article_id := aid, kind := ak, path := path,
                  mime := mime, sha256 := sha, width := w, height := ht, data := d,
                  size_bytes := sz, created_at := now }],
           nextAssetId := db.nextAssetId + 1 } : DB)) = (Except.ok i, db1)) :
    create_or_get_asset db1 now2 aid ak path mime sha w ht d sz = (.ok i, db1) := by
  injection hIns with h1 h2
  injection h1 with h1
  subst h2
  subst h1
  have hfind := find?_append_singleton_of_none (assetKeyPred aid ak path) db.assets
    { id := db.nextAssetId, article_id := aid, kind := ak, path := path, mime := mime,
      sha256 := sha, width := w, height := ht, data := d, size_bytes := sz, created_at := now }
    hk (by simp [assetKeyPred])
  exact create_or_get_asset_key_found
    { db with
      assets := db.assets ++
          [{ id := db.nextAssetId, article_id := aid, kind := ak, path := path,
             mime := mime, sha256 := sha, width := w, height := ht, data := d,
             size_bytes := sz, created_at := now }],
      nextAssetId := db.nextAssetId + 1 } now2 aid ak path mime sha w ht d sz _ hfind

theorem C2_create_or_get_idempotent
    (db : DB) (now now2 : Nat) (aid : String) (ak : AssetKind) (path : String)
    (mime sha : Option String) (w ht : Option Nat) (d : Option (List Nat)) (sz : Option Nat)
    (tk : TextKind) (pv : Option String) (tok : Option Nat) (i : Nat) (db1 : DB) :
    (create_or_get_asset db now aid ak path mime sha w ht d sz = (.ok i, db1) →
      create_or_get_asset db1 now2 aid ak path mime sha w ht d sz = (.ok i, db1)) ∧
    (create_or_get_text (create_or_get_text db now aid tk path pv tok).2 now2 aid tk path pv tok
      = create_or_get_text db now aid tk path pv tok) := by
  constructor
  · intro h
    unfold create_or_get_asset at h
    cases hk : db.assets.find? (assetKeyPred aid ak path) with
    | some row =>
      simp only [hk] at h
      injection h with h1 h2
      injection h1 with h1
      subst h2
      subst h1
      exact create_or_get_asset_key_found db now2 aid ak path mime sha w ht d sz row hk
    | none =>
      simp only [hk] at h
      cases sha with
      | none => exact create_or_get_asset_after_insert db db1 now now2 aid ak path mime none w ht d sz i hk h
      | some hsh =>
        dsimp only at h
        by_cases hemp : hsh = ""
        · rw [if_pos hemp] at h
          exact create_or_get_asset_after_insert db db1 now now2 aid ak path mime (some hsh) w ht d sz i hk h
        · rw [if_neg hemp] at h
          cases hs : db.assets.find? (fun a => a.sha256 = some hsh) with
          | some ex =>
            simp only [hs] at h
            by_cases hdiff : ex.article_id ≠ aid
            · rw [if_pos hdiff] at h
              injection h with h1 h2
              exact absurd h1 (by simp)
            · rw [if_neg hdiff] at h
              injection h with h1 h2
              injection h1 with h1
              subst h2
              subst h1
              unfold create_or_get_asset
              simp only [hk, hs, if_neg hemp, if_neg hdiff]
          | none =>
            simp only [hs] at h
            exact create_or_get_asset_after_insert db db1 now now2 aid ak path mime (some hsh) w ht d sz i hk h
  · cases ht2 : db.texts.find? (textKeyPred aid tk path) with
    | some row =>
      unfold create_or_get_text
      simp only [ht2]
    | none =>
      unfold create_or_get_text
      simp only [ht2]
      rw [find?_append_singleton_of_none _ db.texts _ ht2 (by simp [textKeyPred])]

/-- Empty store used by the witness of C2. -/
def c2dbEmpty : DB :=
  { articles := [], assets := [], texts := [], nextAssetId := 0, nextTextId := 0 }

/-- Store after the first create_or_get_asset call of the C2 witness
inserted its row. -/
def c2dbAfter : DB :=
  { articles := [], texts := [], nextTextId := 0, nextAssetId := 1,
    assets := [{ id := 0, article_id := "A", kind := .other, path := "p", mime := none,
                 sha256 := none, width := none, height := none, data := none,
                 size_bytes := none, created_at := 5 }] }

/-- Witness for C2_create_or_get_idempotent: after a first call
inserted the row, the second identical call returns the same id 0 and
the unchanged store; the text function behaves the same way. -/
theorem C2_witness :
    create_or_get_asset c2dbAfter 6 "A" AssetKind.other "p" none none none none none none
      = (.ok 0, c2dbAfter) ∧
    create_or_get_text (create_or_get_text c2dbEmpty 5 "A" TextKind.other "p" none none).2
        6 "A" TextKind.other "p" none none
      = create_or_get_text c2dbEmpty 5 "A" TextKind.other "p" none none :=
  ⟨(C2_create_or_get_idempotent c2dbEmpty 5 6 "A" .other "p" none none none none none none
      .other none none 0 c2dbAfter).1 rfl,
   (C2_create_or_get_idempotent c2dbEmpty 5 6 "A" .other "p" none none none none none none
      .other none none 0 c2dbAfter).2⟩

/-! ## Claim C10 -/

/-- Claim C10: on an existing article, upsert_article rewrites only
title, url, paragraphs_count and updated_at, takes the supplied
published_at only when it is non-None (a None argument keeps the stored
value), and leaves id, created_at, both generation flags and both
generation timestamps untouched (the record update below names exactly
the fields that change); rows of other articles and the other tables
are untouched. -/
theorem C10_upsert_article_frame (db : DB) (now : Nat) (id url title : String)
    (pub : Option Nat) (pc : Nat) (a0 : ArticleRow)
    (hfind : db.articles.find? (fun a => a.id = id) = some a0) :
    dbGetArticle (upsert_article db now id url title pub pc).2 id =
      some { a0 with title := title, url := url, paragraphs_count := pc, updated_at := now,
                     published_at := if pub.isSome then pub else a0.published_at } ∧
    (upsert_article db now id url title pub pc).2.assets = db.assets ∧
    (upsert_article db now id url title pub pc).2.texts = db.texts ∧
    (∀ b ∈ db.articles, b.id ≠ id → b ∈ (upsert_article db now id url title pub pc).2.articles) := by
  have ha0 : a0.id = id := by
    have := List.find?_some hfind
    simpa using this
  unfold upsert_article
  simp only [hfind]
  refine ⟨?_, by trivial, by trivial, ?_⟩
  · unfold dbGetArticle
    dsimp only
    rw [List.find?_map]
    have hcomp : ((fun (a : ArticleRow) => decide (a.id = id)) ∘
        (fun (a : ArticleRow) =>
          if a.id = id then
            { a with title := title, url := url, paragraphs_count := pc, updated_at := now,
                     published_at := if pub.isSome then pub else a.published_at }
          else a)) = (fun (a : ArticleRow) => decide (a.id = id)) := by
      funext a
      by_cases hid : a.id = id
      · simp [hid]
      · simp [hid]
    rw [hcomp, hfind]
    simp [ha0]
  · intro b hb hbne
    refine List.mem_map.mpr ⟨b, hb, ?_⟩
    rw [if_neg hbne]

/-- Article used by the C10 witness: flags and timestamps set so the
frame conditions are observable. -/
def c10a : ArticleRow :=
  { id := "11LM001", url := "u0", title := "t0", published_at := some 3,
    paragraphs_count := 2, created_at := 1, updated_at := 1,
    has_image_generated := true, image_generated_at := some 2,
    has_text_generated := false, text_generated_at := none }

/-- Store used by the C10 witness. -/
def c10db : DB :=
  { articles := [c10a], assets := [], texts := [], nextAssetId := 0, nextTextId := 0 }

/-- Witness for C10_upsert_article_frame: updating the stored article
with a None published_at changes only the named fields and keeps the
stored published_at, flags and timestamps. -/
theorem C10_witness :
    dbGetArticle (upsert_article c10db 9 "11LM001" "u1" "t1" none 4).2 "11LM001" =
      some { c10a with title := "t1", url := "u1", paragraphs_count := 4, updated_at := 9,
                       published_at := if (none : Option Nat).isSome then none
                                       else c10a.published_at } ∧
    (upsert_article c10db 9 "11LM001" "u1" "t1" none 4).2.assets = c10db.assets ∧
    (upsert_article c10db 9 "11LM001" "u1" "t1" none 4).2.texts = c10db.texts :=
  ⟨(C10_upsert_article_frame c10db 9 "11LM001" "u1" "t1" none 4 c10a (by decide)).1,
   (C10_upsert_article_frame c10db 9 "11LM001" "u1" "t1" none 4 c10a (by decide)).2.1,
   (C10_upsert_article_frame c10db 9 "11LM001" "u1" "t1" none 4 c10a (by decide)).2.2.1⟩

/-! ## Claim C5 -/

theorem mark_sets_flag (db db2 : DB) (now : Nat) (aid : String)
    (h : mark_article_image_generated db now aid = .ok db2) :
    ∃ a, dbGetArticle db2 aid = some a ∧ a.has_image_generated = true := by
  unfold mark_article_image_generated at h
  cases hf : db.articles.find? (fun a => a.id = aid) with
  | none =>
    rw [hf] at h
    exact absurd h (by simp)
  | some a0 =>
    rw [hf] at h
    injection h with h
    subst h
    have ha0 : a0.id = aid := by
      have := List.find?_some hf
      simpa using this
    unfold dbGetArticle
    dsimp only
    rw [List.find?_map]
    have hcomp : ((fun (a : ArticleRow) => decide (a.id = aid)) ∘
        (fun (a : ArticleRow) =>
          if a.id = aid then
            { a with has_image_generated := true, image_generated_at := some now,
                     updated_at := now }
          else a)) = (fun (a : ArticleRow) => decide (a.id = aid)) := by
      funext a
      by_cases hid : a.id = aid
      · simp [hid]
      · simp [hid]
    rw [hcomp, hf]
    refine ⟨_, rfl, ?_⟩
    simp [ha0]

/-- Claim C5: a successful text-to-image generation run leaves the
article's has_image_generated flag true, and a second call for the same
article with force off is a no-op: it returns the skipped result with
zero external network calls (the check runs before any API traffic),
creates no asset row, and leaves the store (hence the flag) exactly as
it was. -/
theorem C5_t2i_flag_and_skip (env1 env2 : T2IEnv) (db db1 : DB)
    (aid title body title2 body2 : String) (sb sb2 : Bool) (n : Nat)
    (p s : String) (w h : Nat)
    (hrun : generate_t2i_for_article env1 db aid title body false sb
      = (n, .ok (.done aid p s w h, db1)))
    (hkey2 : env2.apiKeySet = true) :
    (∃ a, dbGetArticle db1 aid = some a ∧ a.has_image_generated = true) ∧
    generate_t2i_for_article env2 db1 aid title2 body2 false sb2
      = (0, .ok (.skipped aid, db1)) := by
  unfold generate_t2i_for_article at hrun
  by_cases hk1 : env1.apiKeySet = true
  · rw [if_neg (by simp [hk1])] at hrun
    by_cases hskip : t2iSkip db aid false = true
    · rw [if_pos hskip] at hrun
      exact absurd hrun (by simp)
    · rw [if_neg hskip] at hrun
      cases hresp : env1.apiResp with
      | none =>
        rw [hresp] at hrun
        exact absurd hrun (by simp)
      | some img =>
        rw [hresp] at hrun
        dsimp only at hrun
        cases hca : create_or_get_asset db env1.now aid AssetKind.generated_image
            (t2iOutPath aid env1.ts) (some "image/png") (some img.sha256) (some img.width)
            (some img.height) (if sb then some img.bytes else none) (some img.bytes.length) with
        | mk r1 dbA =>
          rw [hca] at hrun
          cases r1 with
          | error e =>
            exact absurd hrun (by simp)
          | ok aId =>
            dsimp only at hrun
            cases hmk : mark_article_image_generated dbA env1.now aid with
            | error e =>
              rw [hmk] at hrun
              exact absurd hrun (by simp)
            | ok db2 =>
              rw [hmk] at hrun
              dsimp only at hrun
              simp only [Prod.mk.injEq, Except.ok.injEq, T2IOutcome.done.injEq] at hrun
              obtain ⟨-, ⟨-, -, -, -, -⟩, hdb⟩ := hrun
              rw [← hdb]
              obtain ⟨a, hga, hflag⟩ := mark_sets_flag dbA db2 env1.now aid hmk
              refine ⟨⟨a, hga, hflag⟩, ?_⟩
              unfold generate_t2i_for_article
              rw [if_neg (by simp [hkey2])]
              have hskip2 : t2iSkip db2 aid false = true := by
                unfold t2iSkip
                rw [if_neg (by simp)]
                rw [hga]
                exact hflag
              rw [if_pos hskip2]
  · rw [if_pos (by simpa using hk1)] at hrun
    exact absurd hrun (by simp)

/-- Environment of the first C5 witness call: key set, clock fixed, and
the external generation producing a small image. -/
def c5env1 : T2IEnv :=
  { apiKeySet := true, ts := "20250101T000000Z", now := 5,
    apiResp := some { sha256 := "hh", width := 4, height := 3, bytes := [1, 2] } }

/-- Environment of the second C5 witness call (its API responses are
never consulted). -/
def c5env2 : T2IEnv :=
  { apiKeySet := true, ts := "20250101T000100Z", now := 6, apiResp := none }

/-- Store before the C5 witness run: the article exists and has no
generated image. -/
def c5db : DB :=
  { articles := [{ id := "A", url := "u", title := "t", published_at := none,
                   paragraphs_count := 0, created_at := 1, updated_at := 1,
                   has_image_generated := false, image_generated_at := none,
                   has_text_generated := false, text_generated_at := none }],
    assets := [], texts := [], nextAssetId := 0, nextTextId := 0 }

/-- Store after the successful C5 witness run: asset registered and the
flag flipped. -/
def c5db2 : DB :=
  { articles := [{ id := "A", url := "u", title := "t", published_at := none,
                   paragraphs_count := 0, created_at := 1, updated_at := 5,
                   has_image_generated := true, image_generated_at := some 5,
                   has_text_generated := false, text_generated_at := none }],
    assets := [{ id := 0, article_id := "A", kind := .generated_image,
                 path := t2iOutPath "A" "20250101T000000Z", mime := some "image/png",
                 sha256 := some "hh", width := some 4, height := some 3,
                 data := some [1, 2], size_bytes := some 2, created_at := 5 }],
    texts := [], nextAssetId := 1, nextTextId := 0 }

/-- Witness for C5_t2i_flag_and_skip on a concrete run. -/
theorem C5_witness :
    (∃ a, dbGetArticle c5db2 "A" = some a ∧ a.has_image_generated = true) ∧
    generate_t2i_for_article c5env2 c5db2 "A" "t2" "b2" false true
      = (0, .ok (.skipped "A", c5db2)) :=
  C5_t2i_flag_and_skip c5env1 c5env2 c5db c5db2 "A" "t" "b" "t2" "b2" true true 2
    (t2iOutPath "A" "20250101T000000Z") "hh" 4 3 rfl rfl

/-! ## Claim C9 -/

theorem gmiLoop_attempts (envs : Nat → T2IEnv) (items : List (String × String × String)) :
    ∀ (i : Nat) (db : DB), (gmiLoop envs i db items).2.1 = items.map (fun it => it.1) := by
  induction items with
  | nil =>
    intro i db
    rfl
  | cons it rest ih =>
    intro i db
    obtain ⟨aid, title, url⟩ := it
    simp only [gmiLoop, List.map_cons]
    rw [ih]

/-- Claim C9: generate_missing_images attempts generation for every
pending article whether or not dry_run is set — the loop state (final
store, attempted ids, external-call count) is identical for both flag
values — and dry_run only selects the return value: the list of pending
article ids when set, nothing otherwise. -/
theorem C9_dry_run_only_affects_return (envs : Nat → T2IEnv) (db : DB) (limit : Nat) :
    (generate_missing_images envs db limit true).1
      = (generate_missing_images envs db limit false).1 ∧
    ((generate_missing_images envs db limit true).1).2.1
      = (get_pending_articles_for_t2i db limit).map (fun it => it.1) ∧
    ((generate_missing_images envs db limit false).1).2.1
      = (get_pending_articles_for_t2i db limit).map (fun it => it.1) ∧
    (generate_missing_images envs db limit true).2
      = some ((get_pending_articles_for_t2i db limit).map (fun it => it.1)) ∧
    (generate_missing_images envs db limit false).2 = none := by
  refine ⟨rfl, ?_, ?_, rfl, rfl⟩
  · unfold generate_missing_images
    exact gmiLoop_attempts envs (get_pending_articles_for_t2i db limit) 0 db
  · unfold generate_missing_images
    exact gmiLoop_attempts envs (get_pending_articles_for_t2i db limit) 0 db

/-! ## Claim C6 -/

theorem length_dropWhile_le {α : Type} (p : α → Bool) (l : List α) :
    (l.dropWhile p).length ≤ l.length := by
  induction l with
  | nil => simp
  | cons a t ih =>
    rw [List.dropWhile_cons]
    by_cases h : p a = true
    · rw [if_pos h]
      exact le_trans ih (by simp)
    · rw [if_neg h]

theorem length_pyStrip_le (l : List Char) : (pyStrip l).length ≤ l.length := by
  unfold pyStrip
  rw [List.length_reverse]
  exact le_trans (length_dropWhile_le _ _)
    (by rw [List.length_reverse]; exact length_dropWhile_le _ _)

theorem dropWhile_eq_drop {α : Type} (p : α → Bool) (xs : List α) :
    xs.dropWhile p = xs.drop (xs.takeWhile p).length := by
  induction xs with
  | nil => rfl
  | cons a t ih =>
    rw [List.dropWhile_cons, List.takeWhile_cons]
    by_cases h : p a = true
    · simp [h, ih]
    · simp [h]

theorem rstrip_eq_take {α : Type} (p : α → Bool) (l : List α) :
    ∃ k, (l.reverse.dropWhile p).reverse = l.take k := by
  refine ⟨l.length - (l.reverse.takeWhile p).length, ?_⟩
  rw [dropWhile_eq_drop, List.drop_reverse, List.reverse_reverse]

theorem head?_dropWhile_false {α : Type} (p : α → Bool) (l : List α) :
    ∀ c, (l.dropWhile p).head? = some c → p c = false := by
  induction l with
  | nil =>
    intro c hc
    cases hc
  | cons a t ih =>
    intro c hc
    rw [List.dropWhile_cons] at hc
    by_cases h : p a = true
    · rw [if_pos h] at hc
      exact ih c hc
    · rw [if_neg h] at hc
      injection hc with hc
      subst hc
      exact Bool.eq_false_iff.mpr h

theorem head?_take_some {α : Type} (l : List α) (n : Nat) (c : α)
    (h : (l.take n).head? = some c) : l.head? = some c := by
  cases l with
  | nil => simp at h
  | cons a t =>
    cases n with
    | zero => simp at h
    | succ m =>
      simp only [List.take_succ_cons, List.head?_cons] at h ⊢
      exact h

theorem head?_pyStrip_false (l : List Char) :
    ∀ c, (pyStrip l).head? = some c → c.isWhitespace = false := by
  intro c hc
  unfold pyStrip at hc
  obtain ⟨k, hk⟩ := rstrip_eq_take Char.isWhitespace (l.dropWhile Char.isWhitespace)
  rw [hk] at hc
  exact head?_dropWhile_false Char.isWhitespace l c (head?_take_some _ k c hc)

theorem pyStrip_take_eq_take (b : List Char)
    (hb : ∀ c, b.head? = some c → c.isWhitespace = false) (m : Nat) :
    ∃ k, pyStrip (b.take m) = b.take k := by
  have hhead : ∀ c, (b.take m).head? = some c → c.isWhitespace = false := by
    intro c hc
    exact hb c (head?_take_some b m c hc)
  unfold pyStrip
  rw [dropWhile_eq_self_of_head _ _ hhead]
  obtain ⟨k, hk⟩ := rstrip_eq_take Char.isWhitespace (b.take m)
  rw [hk, List.take_take]
  exact ⟨min k m, rfl⟩

theorem head?_normBody_false (body : List Char) :
    ∀ c, (replaceChar '\n' ' ' (pyStrip body)).head? = some c → c.isWhitespace = false := by
  intro c hc
  unfold replaceChar at hc
  rw [List.head?_map] at hc
  cases h0 : (pyStrip body).head? with
  | none =>
    rw [h0] at hc
    cases hc
  | some c0 =>
    rw [h0] at hc
    injection hc with hc
    have hc0 : c0.isWhitespace = false := head?_pyStrip_false body c0 h0
    have hne : ¬ (c0 = '\n') := by
      intro hctr
      rw [hctr] at hc0
      exact absurd hc0 (by decide)
    have hc2 : (if c0 = '\n' then ' ' else c0) = c := hc
    rw [if_neg hne] at hc2
    subst hc2
    exact hc0

set_option maxRecDepth 40000 in
/-- Claim C6, counterexample.  The claim asserts
len(title) + len(truncated body) + style suffix ≤ max_chars for every
title and body.  For title T and an 800-character body the prompt is
1 + 47 + 729 = 777 characters, exceeding max_chars = 750: the code
reserves only 20 characters for the connective, but the style sentence
it actually inserts is 47 characters long. -/
theorem C6_counterexample :
    (build_prompt "T".data (List.replicate 800 'a') 750).length = 777 ∧
    ¬ ((build_prompt "T".data (List.replicate 800 'a') 750).length ≤ 750) := by
  constructor
  · rfl
  · intro hctr
    have h777 : (build_prompt "T".data (List.replicate 800 'a') 750).length = 777 := rfl
    rw [h777] at hctr
    exact absurd hctr (by decide)

/-- Claim C6 (amended): whenever the stripped title leaves room
(len(stripped title) + 20 ≤ max_chars, so the Python slice bound is
non-negative), the prompt length is at most max_chars + 27 — 777 for
the default budget of 750, within the documented ~800-character
limit — and the prompt is exactly the stripped title, the 47-character
style connective, and a prefix of the newline-normalised stripped
body. -/
theorem C6_build_prompt_bound (title body : List Char) (mc : Int)
    (hroom : ((pyStrip title).length : Int) + 20 ≤ mc) :
    ((build_prompt title body mc).length : Int) ≤ mc + 27 ∧
    ∃ k, build_prompt title body mc
      = pyStrip title ++ styleMid ++ (replaceChar '\n' ' ' (pyStrip body)).take k := by
  have hstop : 0 ≤ mc - ((pyStrip title).length : Int) - 20 := by omega
  have hslice : pySliceTo (replaceChar '\n' ' ' (pyStrip body))
      (mc - ((pyStrip title).length : Int) - 20)
      = (replaceChar '\n' ' ' (pyStrip body)).take
          (mc - ((pyStrip title).length : Int) - 20).toNat := by
    unfold pySliceTo
    rw [if_pos hstop]
  have hshape0 : build_prompt title body mc
      = pyStrip title ++ styleMid ++
        pyStrip (pySliceTo (replaceChar '\n' ' ' (pyStrip body))
          (mc - ((pyStrip title).length : Int) - 20)) := rfl
  have hshape : build_prompt title body mc
      = pyStrip title ++ styleMid ++
        pyStrip ((replaceChar '\n' ' ' (pyStrip body)).take
          (mc - ((pyStrip title).length : Int) - 20).toNat) := by
    rw [hshape0, hslice]
  constructor
  · rw [hshape]
    have hlen1 : (pyStrip ((replaceChar '\n' ' ' (pyStrip body)).take
        (mc - ((pyStrip title).length : Int) - 20).toNat)).length
        ≤ (mc - ((pyStrip title).length : Int) - 20).toNat := by
      refine le_trans (length_pyStrip_le _) ?_
      rw [List.length_take]
      exact min_le_left _ _
    rw [List.length_append, List.length_append]
    have hsty : styleMid.length = 47 := rfl
    rw [hsty]
    omega
  · obtain ⟨k, hk⟩ := pyStrip_take_eq_take (replaceChar '\n' ' ' (pyStrip body))
      (head?_normBody_false body) (mc - ((pyStrip title).length : Int) - 20).toNat
    exact ⟨k, by rw [hshape, hk]⟩

/-- Witness for C6_build_prompt_bound at the spec's concrete input:
title T, a 2000-character body, default budget 750. -/
theorem C6_witness :
    ((build_prompt "T".data (List.replicate 2000 'a') 750).length : Int) ≤ 750 + 27 ∧
    ∃ k, build_prompt "T".data (List.replicate 2000 'a') 750
      = pyStrip "T".data ++ styleMid ++
        (replaceChar '\n' ' ' (pyStrip (List.replicate 2000 'a'))).take k :=
  C6_build_prompt_bound "T".data (List.replicate 2000 'a') 750 (by decide)

/-! ## Claim C7 -/

/-- Claim C7: under the default budget of 4 tries, a request that is
rate-limited on every attempt sleeps min(Retry-After, 10) seconds each
time — the header defaulting to 2 when absent — for all four attempts
and then propagates the HTTP error; a request that fails with a network
error on every attempt sleeps 1.5 times the attempt number between
consecutive tries (three sleeps for four tries) and then re-raises; and
a transient failure inside the budget is retried after its backoff
sleep, a later success being returned. -/
theorem C7_backoff_retry (ra : Nat → Option Nat) :
    backoff_retry_get 4 (fun t => .resp 429 (ra t)) =
      ⟨[((min ((ra 1).getD 2) 10 : Nat) : ℚ), ((min ((ra 2).getD 2) 10 : Nat) : ℚ),
        ((min ((ra 3).getD 2) 10 : Nat) : ℚ), ((min ((ra 4).getD 2) 10 : Nat) : ℚ)],
       .error "HTTPError 429"⟩ ∧
    backoff_retry_get 4 (fun _ => .netErr) =
      ⟨[3 / 2, 3, 9 / 2], .error "RequestException"⟩ ∧
    backoff_retry_get 4 (fun t => if t = 1 then .netErr else .resp 200 none) =
      ⟨[3 / 2], .ok 200⟩ := by
  refine ⟨rfl, ?_, ?_⟩
  · show (⟨[(3 / 2 : ℚ) * (0 + 1 : Nat), (3 / 2 : ℚ) * (1 + 1 : Nat), (3 / 2 : ℚ) * (2 + 1 : Nat)],
      .error "RequestException"⟩ : RetryTrace) = ⟨[3 / 2, 3, 9 / 2], .error "RequestException"⟩
    norm_num
  · show (⟨[(3 / 2 : ℚ) * (0 + 1 : Nat)], .ok 200⟩ : RetryTrace) = ⟨[3 / 2], .ok 200⟩
    norm_num

/-- Witness for C7_backoff_retry at a concrete header function: a 429
on every attempt with no Retry-After header sleeps 2 seconds four
times, then propagates. -/
theorem C7_witness :
    backoff_retry_get 4 (fun t => Attempt.resp 429 ((fun _ => (none : Option Nat)) t)) =
      ⟨[2, 2, 2, 2], .error "HTTPError 429"⟩ := by
  have h := (C7_backoff_retry (fun _ => (none : Option Nat))).1
  simpa using h

/-! ## Claim C8 -/

/-- Claim C8: the saved extension comes from the declared content type
when the mime table yields one (the URL playing no role then); when the
content type yields nothing the code falls back to the URL's extension
with the query string stripped, and to .jpg when that is empty; a
resolved .jpe is mapped to .jpg.  In particular content-type image/webp
with a URL ending in .jpg?x=1 saves .webp. -/
theorem C8_extension_resolution :
    (∀ (table : String → Option String) (ct url e : String),
        normalizeCt ct ≠ "" → table (normalizeCt ct) = some e → e ≠ "" → e ≠ ".jpe" →
        resolveExt table ct url = e) ∧
    (∀ (table : String → Option String) (ct url : String),
        (normalizeCt ct = "" ∨ table (normalizeCt ct) = none) →
        resolveExt table ct url =
          (if extFallbackUrl url = ".jpe" then ".jpg" else extFallbackUrl url)) ∧
    (∀ (table : String → Option String) (ct url : String),
        normalizeCt ct ≠ "" → table (normalizeCt ct) = some ".jpe" →
        resolveExt table ct url = ".jpg") ∧
    resolveExt pyImgMimeTable "image/webp" "https://newsmaker.md/a/pic.jpg?x=1" = ".webp" ∧
    extFallbackUrl "https://newsmaker.md/a/pic.jpg?x=1" = ".jpg" ∧
    extFallbackUrl "https://newsmaker.md/a/picture" = ".jpg" := by
  refine ⟨?_, ?_, ?_, by decide, by decide, by decide⟩
  · intro table ct url e h1 h2 h3 h4
    simp [resolveExt, extFallback, h1, h2, h3, h4]
  · intro table ct url h
    rcases h with h | h
    · simp [resolveExt, extFallback, h]
    · by_cases hct : normalizeCt ct = ""
      · simp [resolveExt, extFallback, hct]
      · simp [resolveExt, extFallback, hct, h]
  · intro table ct url h1 h2
    simp [resolveExt, extFallback, h1, h2]

/-- Witness for C8_extension_resolution: the content-type derived
extension wins over the URL for a concrete rate table and URL. -/
theorem C8_witness :
    resolveExt pyImgMimeTable "image/jpeg; charset=binary" "https://newsmaker.md/a/pic.webp?x=1"
      = ".jpg" :=
  C8_extension_resolution.1 pyImgMimeTable "image/jpeg; charset=binary"
    "https://newsmaker.md/a/pic.webp?x=1" ".jpg" (by decide) (by decide) (by decide) (by decide)

end Crawler
